import Mathlib

/-!
Shallow embedding of the structured-output validation layer of the
expenses_agent repository (`src/expenses_agent/assistant/schemas.py`),
together with theorems settling the frozen claims about it.

Modelling conventions:
* Python `Decimal` and `float` become `ℚ`; all the comparisons the code
  performs on them (`v <= 0`, `0 <= s <= 1`) are exact at the values the
  claims mention, so no rounding is lost.
* Python `str.strip()` becomes `pyStrip`, a structural function on the
  character list (the whitespace set is the ASCII one; every claim only
  involves ASCII whitespace).
* A pydantic model class becomes two Lean objects: a `Raw…` structure holding
  the caller-supplied field values (with the pydantic field defaults as
  default field values) and a `validate…` function running the model's
  validation pipeline in pydantic order — `model_validator(mode="before")`
  first, then per-field constraint checks (`max_length`, `ge`/`le`) followed
  by the `field_validator` for that field — returning `Except String` of the
  validated object.
* Untyped pass-through payloads (`data : Optional[Dict[str, Any]]` on
  `AssistantResponse`, `user_preferences : Dict[str, Any]` on
  `ConversationContext`) have no validation attached in the source and are
  irrelevant to every claim; they are omitted from the structures.
-/

namespace ExpensesAgent

/-- Python `str.strip()`: drop leading and trailing whitespace characters. -/
def pyStrip (s : String) : String :=
  ⟨((s.data.dropWhile Char.isWhitespace).reverse.dropWhile Char.isWhitespace).reverse⟩

/-- Enum `ActionType` of `schemas.py` (12 variants). -/
inductive ActionType where
  | create_expense | list_expenses | update_expense | delete_expense
  | create_category | list_categories | update_category | delete_category
  | classify_expense | get_summary | help | unclear
deriving DecidableEq, Repr

/-- Enum `ConfidenceLevel` of `schemas.py`. -/
inductive ConfidenceLevel where
  | high | medium | low
deriving DecidableEq, Repr

/-- Enum `Currency` of `models/models.py` (10 ISO codes). -/
inductive Currency where
  | usd | eur | gbp | jpy | aud | cad | chf | cny | sek | nzd
deriving DecidableEq, Repr

/-- Enum `PaymentMethod` of `models/models.py` (7 variants). -/
inductive PaymentMethod where
  | credit_card | debit_card | cash | bank_transfer | mobile_payment
  | check | other
deriving DecidableEq, Repr

/-- A Python `datetime`: calendar fields plus an optional timezone
(UTC offset in minutes; `none` means timezone-naive). -/
structure PyDatetime where
  year : Nat
  month : Nat
  day : Nat
  hour : Nat
  minute : Nat
  second : Nat
  tzinfo : Option Int
deriving DecidableEq, Repr

/-- Caller-supplied field values for `ExpenseData`, with the pydantic field
defaults of the source. -/
structure RawExpenseData where
  amount : Option ℚ := none
  currency : Option Currency := none
  description : Option String := none
  category_name : Option String := none
  payment_method : Option PaymentMethod := none
  expense_date : Option PyDatetime := none
  notes : Option String := none
  user_name : Option String := none
  confidence : ConfidenceLevel := .medium
deriving DecidableEq, Repr

/-- A validated `ExpenseData` object. -/
structure ExpenseData where
  amount : Option ℚ
  currency : Option Currency
  description : Option String
  category_name : Option String
  payment_method : Option PaymentMethod
  expense_date : Option PyDatetime
  notes : Option String
  user_name : Option String
  confidence : ConfidenceLevel
deriving DecidableEq, Repr

/-- pydantic `max_length` constraint on an optional string field: the raw
value must not exceed the cap (pydantic rejects, it never truncates). -/
def checkMaxLength (cap : Nat) (v : Option String) : Except String (Option String) :=
  match v with
  | none => .ok none
  | some s =>
      if s.length ≤ cap then .ok (some s)
      else .error "String has too many characters"

/-- Validator `ExpenseData.validate_amount`: reject a present amount `≤ 0`. -/
def ExpenseData.validate_amount (v : Option ℚ) : Except String (Option ℚ) :=
  match v with
  | some a => if a ≤ 0 then .error "Amount must be greater than 0" else .ok (some a)
  | none => .ok none

/-- Validator `ExpenseData.validate_description`: strip, and turn an all-whitespace
description into `None`. Registered for the `description` field only. -/
def ExpenseData.validate_description (v : Option String) : Except String (Option String) :=
  match v with
  | some s =>
      let s := pyStrip s
      if s = "" then .ok none else .ok (some s)
  | none => .ok none

/-- Validator `ExpenseData.validate_expense_date`: attach UTC to a timezone-naive
timestamp, leave an aware one unchanged. -/
def ExpenseData.validate_expense_date (v : Option PyDatetime) : Option PyDatetime :=
  match v with
  | some d => if d.tzinfo = none then some { d with tzinfo := some 0 } else some d
  | none => none

/-- The full `ExpenseData` validation pipeline: per-field constraint then
field validator, in field-definition order. The `notes` field carries only
the `max_length=1000` constraint — no field validator is registered for it
in the source. -/
def validateExpenseData (r : RawExpenseData) : Except String ExpenseData := do
  let amount ← ExpenseData.validate_amount r.amount
  let description ← checkMaxLength 500 r.description
  let description ← ExpenseData.validate_description description
  let expense_date := ExpenseData.validate_expense_date r.expense_date
  let notes ← checkMaxLength 1000 r.notes
  .ok { amount := amount
        currency := r.currency
        description := description
        category_name := r.category_name
        payment_method := r.payment_method
        expense_date := expense_date
        notes := notes
        user_name := r.user_name
        confidence := r.confidence }

example : validateExpenseData { description := some "   " } =
    .ok { amount := none, currency := none, description := none,
          category_name := none, payment_method := none, expense_date := none,
          notes := none, user_name := none, confidence := .medium } := by rfl

example : validateExpenseData { notes := some "   " } =
    .ok { amount := none, currency := none, description := none,
          category_name := none, payment_method := none, expense_date := none,
          notes := some "   ", user_name := none, confidence := .medium } := by rfl

example : validateExpenseData { amount := some (-1) } =
    .error "Amount must be greater than 0" := by rfl

/-- A value of a Python `Dict[str, Union[str, float]]` entry: a string or a
number (`int` and `float` both land in `num`). -/
inductive AltVal where
  | str (s : String)
  | num (q : ℚ)
deriving DecidableEq

/-- One element of the `alternative_categories` list as the validator sees
it: either a Python dict (an association list of string keys) or some
non-mapping value — the `isinstance(alt, dict)` branch of the source. -/
inductive AltEntry where
  | dict (kvs : List (String × AltVal))
  | nonDict
deriving DecidableEq

/-- Caller-supplied field values for `ClassificationResult`, with the
pydantic field defaults of the source. -/
structure RawClassificationResult where
  category_name : Option String := none
  category_id : Option Int := none
  confidence : ConfidenceLevel
  confidence_score : ℚ
  reasoning : Option String := none
  alternative_categories : List AltEntry := []
deriving DecidableEq

/-- A validated `ClassificationResult` object. -/
structure ClassificationResult where
  category_name : Option String
  category_id : Option Int
  confidence : ConfidenceLevel
  confidence_score : ℚ
  reasoning : Option String
  alternative_categories : List AltEntry
deriving DecidableEq

/-- The body of the `for alt in v` loop of
`ClassificationResult.validate_alternatives`: an entry must be a dict with
both a `"name"` and a `"score"` key, and the score must be numeric and lie
in `[0, 1]`. -/
def checkAltEntry : AltEntry → Except String Unit
  | .nonDict => .error "Alternative categories must be dictionaries"
  | .dict kvs =>
      if (kvs.lookup "name").isNone || (kvs.lookup "score").isNone then
        .error "Alternative categories must have name and score keys"
      else
        match kvs.lookup "score" with
        | some (.num q) =>
            if 0 ≤ q ∧ q ≤ 1 then .ok ()
            else .error "Alternative category scores must be between 0 and 1"
        | _ => .error "Alternative category scores must be between 0 and 1"

/-- A Python `for` loop that raises on the first offending element and
otherwise falls through. -/
def forLoopCheck (f : α → Except String Unit) : List α → Except String Unit
  | [] => .ok ()
  | a :: rest => do
      _ ← f a
      forLoopCheck f rest

/-- Validator `ClassificationResult.validate_alternatives`: run `checkAltEntry` over
the whole list, first failure aborting; on success the list is returned
unchanged (no filtering). -/
def ClassificationResult.validate_alternatives
    (v : List AltEntry) : Except String (List AltEntry) := do
  _ ← forLoopCheck checkAltEntry v
  .ok v

/-- The full `ClassificationResult` validation pipeline: the
`ge=0.0, le=1.0` constraint on `confidence_score`, then the
`alternative_categories` field validator. -/
def validateClassificationResult
    (r : RawClassificationResult) : Except String ClassificationResult := do
  if 0 ≤ r.confidence_score ∧ r.confidence_score ≤ 1 then
    let alts ← ClassificationResult.validate_alternatives r.alternative_categories
    .ok { category_name := r.category_name
          category_id := r.category_id
          confidence := r.confidence
          confidence_score := r.confidence_score
          reasoning := r.reasoning
          alternative_categories := alts }
  else
    .error "Input should be in the range 0 to 1"

/-- Caller-supplied field values for `AssistantResponse`, with the pydantic
field defaults of the source. The embedded `expense_data` and
`classification_result` values are already-validated objects passed through
unchanged, as when a caller hands pydantic existing model instances. -/
structure RawAssistantResponse where
  action : ActionType
  success : Bool
  message : String
  expense_data : Option ExpenseData := none
  classification_result : Option ClassificationResult := none
  confidence : ConfidenceLevel := .medium
  requires_clarification : Bool := false
  clarification_questions : List String := []
deriving DecidableEq

/-- A validated `AssistantResponse` object. -/
structure AssistantResponse where
  action : ActionType
  success : Bool
  message : String
  expense_data : Option ExpenseData
  classification_result : Option ClassificationResult
  confidence : ConfidenceLevel
  requires_clarification : Bool
  clarification_questions : List String
deriving DecidableEq

/-- Validator `AssistantResponse.validate_clarification_consistency`, the
`model_validator(mode="before")`: if clarification is required and the
(raw, pre-trim) question list is empty, fail; if it is not required but the
raw list is non-empty, force the flag to `True`. -/
def AssistantResponse.validate_clarification_consistency
    (rc : Bool) (qs : List String) : Except String (Bool × List String) :=
  match rc, qs with
  | true, [] => .error "If clarification is required, questions must be provided"
  | false, q :: rest => .ok (true, q :: rest)
  | rc, qs => .ok (rc, qs)

/-- Validator `AssistantResponse.validate_message`: strip, reject if empty. -/
def AssistantResponse.validate_message (v : String) : Except String String :=
  let v := pyStrip v
  if v = "" then .error "Message cannot be empty" else .ok v

/-- Validator `AssistantResponse.validate_clarification_questions`: strip every
question and drop the ones that become empty. -/
def AssistantResponse.validate_clarification_questions
    (v : List String) : List String :=
  (v.map pyStrip).filter (fun q => q ≠ "")

/-- The full `AssistantResponse` validation pipeline, in pydantic order:
the `mode="before"` model validator first, then the field pass — the
`max_length=2000` constraint and emptiness check on `message`, and the
trim-and-drop pass on `clarification_questions`. -/
def validateAssistantResponse
    (r : RawAssistantResponse) : Except String AssistantResponse := do
  let (rc, qs) ← AssistantResponse.validate_clarification_consistency
      r.requires_clarification r.clarification_questions
  let message ←
    if r.message.length ≤ 2000 then pure r.message
    else .error "String has too many characters"
  let message ← AssistantResponse.validate_message message
  let qs := AssistantResponse.validate_clarification_questions qs
  .ok { action := r.action
        success := r.success
        message := message
        expense_data := r.expense_data
        classification_result := r.classification_result
        confidence := r.confidence
        requires_clarification := rc
        clarification_questions := qs }

/-- One entry of a conversation history as the validator sees it: a Python
dict from string keys to string values. -/
abbrev HistEntry := List (String × String)

/-- The dict `\x7b"role": role, "content": content\x7d` appended by
`add_message`. -/
def mkHistEntry (role content : String) : HistEntry :=
  [("role", role), ("content", content)]

/-- The body of the `for entry in v` loop of
`ConversationContext.validate_conversation_history`: an entry must carry
both a `"role"` and a `"content"` key and its role must be `"user"` or
`"assistant"`. -/
def checkHistEntry (e : HistEntry) : Except String Unit :=
  if (e.lookup "role").isNone || (e.lookup "content").isNone then
    .error "Conversation history entries must have role and content"
  else
    match e.lookup "role" with
    | some role =>
        if role = "user" ∨ role = "assistant" then .ok ()
        else .error "Role must be either user or assistant"
    | none => .error "Conversation history entries must have role and content"

/-- State of a `ConversationContext` (the untyped `user_preferences` pass-through
mapping is omitted; nothing validates it). -/
structure ConversationContext where
  user_name : Option String := none
  last_expense_data : Option ExpenseData := none
  last_action : Option ActionType := none
  conversation_history : List HistEntry := []
deriving DecidableEq

/-- Validator `ConversationContext.validate_conversation_history`: run
`checkHistEntry` over the whole list, first failure aborting; on success
the list is returned unchanged. -/
def ConversationContext.validate_conversation_history
    (v : List HistEntry) : Except String (List HistEntry) := do
  _ ← forLoopCheck checkHistEntry v
  .ok v

/-- Method `ConversationContext.add_message`: append the `\x7brole, content\x7d`
dict, then, if the history now exceeds 10 entries, keep only the last 10
(`self.conversation_history[-10:]`). No validation of `role` is performed. -/
def ConversationContext.add_message
    (ctx : ConversationContext) (role content : String) : ConversationContext :=
  let h := ctx.conversation_history ++ [mkHistEntry role content]
  if h.length > 10 then
    { ctx with conversation_history := h.drop (h.length - 10) }
  else
    { ctx with conversation_history := h }

/-- Python slice `l[s:]` for an arbitrary (possibly negative) integer start
index `s`. -/
def pySliceFrom (l : List α) (s : Int) : List α :=
  if s < 0 then l.drop (max ((l.length : Int) + s) 0).toNat
  else l.drop s.toNat

/-- Method `ConversationContext.get_recent_messages`:
`self.conversation_history[-count:] if self.conversation_history else []`. -/
def ConversationContext.get_recent_messages
    (ctx : ConversationContext) (count : Int) : List HistEntry :=
  if ctx.conversation_history = [] then []
  else pySliceFrom ctx.conversation_history (-count)

/-! Helper notions and lemmas shared by the theorems below. -/

/-- Python slice `l[-n:]` for `n ≥ 1`: the last `n` entries of `l` (all of
`l` when it is shorter). -/
def takeLast (n : Nat) (l : List α) : List α := l.drop (l.length - n)

theorem takeLast_eq_reverse_take (n : Nat) (l : List α) :
    takeLast n l = (l.reverse.take n).reverse := by
  rw [List.reverse_take]
  simp [takeLast]

theorem length_takeLast (n : Nat) (l : List α) :
    (takeLast n l).length = min n l.length := by
  simp [takeLast]
  omega

theorem takeLast_of_length_le {n : Nat} {l : List α} (h : l.length ≤ n) :
    takeLast n l = l := by
  simp [takeLast, Nat.sub_eq_zero_of_le h]

theorem takeLast_append_absorb (n : Nat) (xs ys : List α) :
    takeLast n (takeLast n xs ++ ys) = takeLast n (xs ++ ys) := by
  simp only [takeLast_eq_reverse_take, List.reverse_append, List.reverse_reverse]
  congr 1
  rw [List.take_append_eq_append_take, List.take_append_eq_append_take,
    List.take_take]
  congr 2
  omega

theorem forLoopCheck_ok (f : α → Except String Unit) (l : List α)
    (h : ∀ a ∈ l, f a = .ok ()) : forLoopCheck f l = .ok () := by
  induction l with
  | nil => rfl
  | cons a rest ih =>
      have ha := h a (List.mem_cons_self a rest)
      simp only [forLoopCheck, ha, Except.bind]
      exact ih fun b hb => h b (List.mem_cons_of_mem a hb)

theorem forLoopCheck_error (f : α → Except String Unit) (l : List α)
    (a : α) (ha : a ∈ l) (m : String) (hm : f a = .error m) :
    ∃ msg, forLoopCheck f l = .error msg := by
  induction l with
  | nil => cases ha
  | cons b rest ih =>
      rcases hb : f b with mb | ub
      · exact ⟨mb, by simp only [forLoopCheck, hb, Bind.bind, Except.bind]⟩
      · rcases List.mem_cons.mp ha with rfl | hrest
        · rw [hb] at hm; cases hm
        · obtain ⟨msg, hmsg⟩ := ih hrest
          exact ⟨msg, by simp only [forLoopCheck, hb, Bind.bind, Except.bind]; exact hmsg⟩

/-- A list of messages fed one by one through `add_message`. -/
def addAll (ctx : ConversationContext) (msgs : List (String × String)) :
    ConversationContext :=
  msgs.foldl (fun c m => c.add_message m.1 m.2) ctx

theorem add_message_history (ctx : ConversationContext) (role content : String) :
    (ctx.add_message role content).conversation_history
      = takeLast 10 (ctx.conversation_history ++ [mkHistEntry role content]) := by
  by_cases h10 : 10 < ctx.conversation_history.length + 1
  · simp [ConversationContext.add_message, takeLast, h10]
  · have h0 : ctx.conversation_history.length - 9 = 0 := by omega
    simp [ConversationContext.add_message, takeLast, h10, h0]

theorem addAll_history (msgs : List (String × String)) (ctx : ConversationContext)
    (h : ctx.conversation_history.length ≤ 10) :
    (addAll ctx msgs).conversation_history
      = takeLast 10 (ctx.conversation_history
          ++ msgs.map (fun m => mkHistEntry m.1 m.2)) := by
  induction msgs generalizing ctx with
  | nil => simp [addAll, takeLast_of_length_le h]
  | cons m rest ih =>
      have hstep : addAll ctx (m :: rest) = addAll (ctx.add_message m.1 m.2) rest := rfl
      have hlen : (ctx.add_message m.1 m.2).conversation_history.length ≤ 10 := by
        rw [add_message_history, length_takeLast]
        omega
      rw [hstep, ih _ hlen, add_message_history, takeLast_append_absorb]
      simp

/-! Claim C5. -/

/-- C5: after any sequence of `add_message` calls on a context whose history
is within bounds, the history is exactly the sliding window of the 10 most
recently added entries in original relative order (so it never exceeds 10
entries); in particular 12 calls on an empty context leave exactly the last
10 of the 12 messages, oldest dropped first. -/
theorem C5_add_message_sliding_window (ctx : ConversationContext)
    (msgs : List (String × String))
    (h : ctx.conversation_history.length ≤ 10) :
    (addAll ctx msgs).conversation_history
        = takeLast 10 (ctx.conversation_history
            ++ msgs.map (fun m => mkHistEntry m.1 m.2))
    ∧ (addAll ctx msgs).conversation_history.length ≤ 10
    ∧ (∀ ms : List (String × String), ms.length = 12 →
        (addAll { conversation_history := [] } ms).conversation_history
          = (ms.map (fun m => mkHistEntry m.1 m.2)).drop 2) := by
  refine ⟨addAll_history msgs ctx h, ?_, ?_⟩
  · rw [addAll_history msgs ctx h, length_takeLast]
    omega
  · intro ms hms
    rw [addAll_history ms { conversation_history := [] } (by simp)]
    simp [takeLast, hms]

/-- Twelve concrete messages for the C5 witness. -/
def msgsC5 : List (String × String) :=
  [("user", "m1"), ("assistant", "m2"), ("user", "m3"), ("assistant", "m4"),
   ("user", "m5"), ("assistant", "m6"), ("user", "m7"), ("assistant", "m8"),
   ("user", "m9"), ("assistant", "m10"), ("user", "m11"), ("assistant", "m12")]

/-- Witness for C5 at a concrete input: 12 messages on the empty context
leave the last 10. -/
theorem C5_witness :
    (({ conversation_history := [] } : ConversationContext).conversation_history.length ≤ 10)
    ∧ msgsC5.length = 12
    ∧ (addAll { conversation_history := [] } msgsC5).conversation_history
        = (msgsC5.map (fun m => mkHistEntry m.1 m.2)).drop 2 :=
  ⟨by simp, rfl,
    (C5_add_message_sliding_window { conversation_history := [] } [] (by simp)).2.2
      msgsC5 rfl⟩

/-! Claim C6. -/

/-- A context with a single history entry, on which
`get_recent_messages 0` misbehaves. -/
def ctxC6 : ConversationContext :=
  { conversation_history := [mkHistEntry "user" "hi"] }

/-- C6 counterexample: the claim promises the last `count` entries for every
`count`, but at `count = 0` the source's `history[-count:]` slice is
`history[0:]` — the whole (non-empty) history, not the empty list. -/
theorem C6_counterexample :
    ctxC6.get_recent_messages 0 = [mkHistEntry "user" "hi"]
    ∧ takeLast 0 ctxC6.conversation_history = []
    ∧ ctxC6.conversation_history ≠ [] :=
  ⟨rfl, rfl, by simp [ctxC6]⟩

/-- C6 (amended to `count ≥ 1`): `get_recent_messages count` returns the
last `count` history entries in order — all entries if the history is
shorter than `count`, and the empty list if the history is empty. -/
theorem C6_get_recent_messages (ctx : ConversationContext) (count : Int)
    (h : 1 ≤ count) :
    ctx.get_recent_messages count = takeLast count.toNat ctx.conversation_history
    ∧ (ctx.conversation_history.length ≤ count.toNat →
        ctx.get_recent_messages count = ctx.conversation_history)
    ∧ (ctx.conversation_history = [] → ctx.get_recent_messages count = []) := by
  have hmain : ctx.get_recent_messages count
      = takeLast count.toNat ctx.conversation_history := by
    unfold ConversationContext.get_recent_messages pySliceFrom takeLast
    by_cases hnil : ctx.conversation_history = []
    · simp [hnil]
    · have hneg : -count < 0 := by omega
      rw [if_neg hnil, if_pos hneg]
      congr 1
      omega
  exact ⟨hmain, fun hle => by rw [hmain, takeLast_of_length_le hle],
    fun hnil => by rw [hmain, hnil]; simp [takeLast]⟩

/-- A context with three history entries for the C6 witness. -/
def ctxC6w : ConversationContext :=
  { conversation_history :=
      [mkHistEntry "user" "a", mkHistEntry "assistant" "b", mkHistEntry "user" "c"] }

/-- Witness for C6 at a concrete input: `get_recent_messages 5` on a context
with 3 entries returns exactly those 3, in order. -/
theorem C6_witness :
    (1 : Int) ≤ 5
    ∧ ctxC6w.conversation_history.length ≤ (5 : Int).toNat
    ∧ ctxC6w.get_recent_messages 5 = ctxC6w.conversation_history :=
  ⟨by norm_num, by simp [ctxC6w],
    (C6_get_recent_messages ctxC6w 5 (by norm_num)).2.1 (by simp [ctxC6w])⟩

/-! Claim C7. -/

/-- C7: `add_message` performs no validation of its role argument — with any
role outside the allowed set it still appends the entry (the new entry is
the last of the history), and the resulting history no longer passes
`validate_conversation_history`, even though the context's history passed it
at construction. -/
theorem C7_add_message_role_unvalidated (ctx : ConversationContext)
    (role content : String)
    (hrole : role ≠ "user" ∧ role ≠ "assistant")
    (_hvalid : ConversationContext.validate_conversation_history
        ctx.conversation_history = .ok ctx.conversation_history) :
    (ctx.add_message role content).conversation_history.getLast?
        = some (mkHistEntry role content)
    ∧ ∃ msg, ConversationContext.validate_conversation_history
        (ctx.add_message role content).conversation_history = .error msg := by
  have hlast : (ctx.add_message role content).conversation_history.getLast?
      = some (mkHistEntry role content) := by
    rw [add_message_history, takeLast_eq_reverse_take, List.getLast?_reverse,
      List.reverse_append]
    simp
  refine ⟨hlast, ?_⟩
  have hbad : checkHistEntry (mkHistEntry role content)
      = .error "Role must be either user or assistant" := by
    have h1 : (mkHistEntry role content).lookup "role" = some role := rfl
    have h2 : (mkHistEntry role content).lookup "content" = some content := rfl
    simp [checkHistEntry, h1, h2, hrole.1, hrole.2]
  have hmem : mkHistEntry role content
      ∈ (ctx.add_message role content).conversation_history := by
    obtain ⟨hne, heq⟩ :=
      List.mem_getLast?_eq_getLast
        (l := (ctx.add_message role content).conversation_history)
        (x := mkHistEntry role content)
        (by simp [Option.mem_def, hlast])
    rw [heq]
    exact List.getLast_mem hne
  obtain ⟨msg, hmsg⟩ :=
    forLoopCheck_error checkHistEntry _ _ hmem _ hbad
  exact ⟨msg, by
    simp [ConversationContext.validate_conversation_history, Bind.bind,
      Except.bind, hmsg]⟩

/-- Witness for C7 at a concrete input: adding a `"system"` message to the
(validly constructed) empty context yields a history the validator
rejects. -/
theorem C7_witness :
    (("system" : String) ≠ "user" ∧ ("system" : String) ≠ "assistant")
    ∧ ∃ msg, ConversationContext.validate_conversation_history
        (({ conversation_history := [] } : ConversationContext).add_message
          "system" "boot").conversation_history = .error msg :=
  ⟨⟨by decide, by decide⟩,
    (C7_add_message_role_unvalidated { conversation_history := [] } "system"
      "boot" ⟨by decide, by decide⟩ rfl).2⟩

/-! Claims C1, C2, C3. -/

theorem clarification_consistency_nonempty (rc : Bool) (q : String)
    (rest : List String) :
    AssistantResponse.validate_clarification_consistency rc (q :: rest)
      = .ok (true, q :: rest) := by
  cases rc <;> rfl

/-- C1: with an otherwise valid message, `AssistantResponse` construction
fails when clarification is required with an empty question list, and
succeeds with the clarification flag forced to `true` when it is not
required but the question list is non-empty. -/
theorem C1_clarification_consistency (r : RawAssistantResponse)
    (hmsg : pyStrip r.message ≠ "" ∧ r.message.length ≤ 2000) :
    (r.requires_clarification = true ∧ r.clarification_questions = [] →
        ∃ msg, validateAssistantResponse r = .error msg)
    ∧ (r.requires_clarification = false ∧ r.clarification_questions ≠ [] →
        ∃ a, validateAssistantResponse r = .ok a
          ∧ a.requires_clarification = true) := by
  constructor
  · rintro ⟨hrc, hqs⟩
    refine ⟨"If clarification is required, questions must be provided", ?_⟩
    simp [validateAssistantResponse,
      AssistantResponse.validate_clarification_consistency, hrc, hqs,
      Bind.bind, Except.bind]
  · rintro ⟨hrc, hqs⟩
    obtain ⟨q, rest, hq⟩ : ∃ q rest, r.clarification_questions = q :: rest := by
      cases hcase : r.clarification_questions with
      | nil => exact absurd hcase hqs
      | cons q rest => exact ⟨q, rest, rfl⟩
    refine ⟨{ action := r.action, success := r.success,
              message := pyStrip r.message,
              expense_data := r.expense_data,
              classification_result := r.classification_result,
              confidence := r.confidence,
              requires_clarification := true,
              clarification_questions :=
                AssistantResponse.validate_clarification_questions
                  (q :: rest) }, ?_, rfl⟩
    simp [validateAssistantResponse, hq, clarification_consistency_nonempty,
      hmsg.1, hmsg.2, AssistantResponse.validate_message, Bind.bind,
      Except.bind, pure, Except.pure]

/-- Concrete raw response for the C1 witness. -/
def rawC1 : RawAssistantResponse :=
  { action := .help, success := true, message := "ok",
    requires_clarification := false,
    clarification_questions := ["What category?"] }

/-- Witness for C1 at a concrete input: an unset clarification flag with one
real question yields a constructed object with the flag forced true. -/
theorem C1_witness :
    (pyStrip rawC1.message ≠ "" ∧ rawC1.message.length ≤ 2000)
    ∧ (rawC1.requires_clarification = false ∧ rawC1.clarification_questions ≠ [])
    ∧ ∃ a, validateAssistantResponse rawC1 = .ok a
        ∧ a.requires_clarification = true :=
  ⟨⟨by decide, by decide⟩, ⟨rfl, by decide⟩,
    (C1_clarification_consistency rawC1 ⟨by decide, by decide⟩).2
      ⟨rfl, by decide⟩⟩

/-- C2: the consistency pass sees the caller-supplied, pre-trim question
list — any non-empty raw list (even one whose entries are all whitespace)
counts as non-empty, construction succeeds with the flag forced true, and
the trim-and-drop pass is applied afterwards to produce the stored list. -/
theorem C2_pretrim_consistency (r : RawAssistantResponse)
    (hqs : r.clarification_questions ≠ [])
    (hmsg : pyStrip r.message ≠ "" ∧ r.message.length ≤ 2000) :
    ∃ a, validateAssistantResponse r = .ok a
      ∧ a.requires_clarification = true
      ∧ a.clarification_questions
          = AssistantResponse.validate_clarification_questions
              r.clarification_questions := by
  obtain ⟨q, rest, hq⟩ : ∃ q rest, r.clarification_questions = q :: rest := by
    cases hcase : r.clarification_questions with
    | nil => exact absurd hcase hqs
    | cons q rest => exact ⟨q, rest, rfl⟩
  refine ⟨{ action := r.action, success := r.success,
            message := pyStrip r.message,
            expense_data := r.expense_data,
            classification_result := r.classification_result,
            confidence := r.confidence,
            requires_clarification := true,
            clarification_questions :=
              AssistantResponse.validate_clarification_questions
                (q :: rest) }, ?_, rfl, by rw [hq]⟩
  simp [validateAssistantResponse, hq, clarification_consistency_nonempty,
    hmsg.1, hmsg.2, AssistantResponse.validate_message, Bind.bind,
    Except.bind, pure, Except.pure]

/-- Concrete raw response for the C2 witness: the only question is
whitespace-only, yet the consistency check counts the list as non-empty. -/
def rawC2 : RawAssistantResponse :=
  { action := .unclear, success := false, message := "ok",
    requires_clarification := true,
    clarification_questions := ["   "] }

/-- Witness for C2 at a concrete input: clarification required with a
whitespace-only question constructs fine (the pre-trim list is non-empty),
and the stored question list is the post-trim one. -/
theorem C2_witness :
    rawC2.clarification_questions ≠ []
    ∧ ∃ a, validateAssistantResponse rawC2 = .ok a
        ∧ a.requires_clarification = true
        ∧ a.clarification_questions
            = AssistantResponse.validate_clarification_questions
                rawC2.clarification_questions :=
  ⟨by decide, C2_pretrim_consistency rawC2 (by decide) ⟨by decide, by decide⟩⟩

/-- The clarification invariant the spec states for constructed objects:
a requested clarification comes with at least one question. -/
def clarificationInvariant (a : AssistantResponse) : Prop :=
  a.requires_clarification = true → a.clarification_questions ≠ []

/-- Concrete raw response for C3: flag unset, one whitespace-only
question. -/
def rawC3 : RawAssistantResponse :=
  { action := .unclear, success := false, message := "Need more info",
    requires_clarification := false,
    clarification_questions := ["   "] }

/-- C3: construction from `rawC3` succeeds, and the constructed object has
`requires_clarification = true` with an empty question list — it violates
the clarification invariant. -/
theorem C3_constructed_object_violates_invariant :
    ∃ a, validateAssistantResponse rawC3 = .ok a
      ∧ a.requires_clarification = true
      ∧ a.clarification_questions = []
      ∧ ¬ clarificationInvariant a := by
  refine ⟨{ action := .unclear, success := false, message := "Need more info",
            expense_data := none, classification_result := none,
            confidence := .medium, requires_clarification := true,
            clarification_questions := [] }, ?_, rfl, rfl, ?_⟩
  · rfl
  · simp [clarificationInvariant]

/-! Claim C4. -/

/-- C4 counterexample: an all-whitespace notes value is kept verbatim — it
does not become null the way an all-whitespace description does, so notes
are not treated like description. -/
theorem C4_counterexample :
    (∃ e, validateExpenseData { notes := some "   " } = .ok e
      ∧ e.notes = some "   " ∧ e.notes ≠ none)
    ∧ (∃ e, validateExpenseData { description := some "   " } = .ok e
      ∧ e.description = none) :=
  ⟨⟨{ amount := none, currency := none, description := none,
      category_name := none, payment_method := none, expense_date := none,
      notes := some "   ", user_name := none, confidence := .medium },
    rfl, rfl, by simp⟩,
   ⟨{ amount := none, currency := none, description := none,
      category_name := none, payment_method := none, expense_date := none,
      notes := none, user_name := none, confidence := .medium },
    rfl, rfl⟩⟩

/-- C4 (amended): notes are NOT trimmed — a notes value within the
1000-character cap (even an all-whitespace one) is kept verbatim and never
errors, while a notes value exceeding the cap fails validation rather than
being truncated. -/
theorem C4_notes_validation (r : RawExpenseData) (s : String)
    (hn : r.notes = some s)
    (ha : ∀ a, r.amount = some a → 0 < a)
    (hd : ∀ d, r.description = some d → d.length ≤ 500) :
    (s.length ≤ 1000 → ∃ e, validateExpenseData r = .ok e ∧ e.notes = some s)
    ∧ (1000 < s.length → ∃ msg, validateExpenseData r = .error msg) := by
  have hamt : ExpenseData.validate_amount r.amount = .ok r.amount := by
    cases hra : r.amount with
    | none => rfl
    | some a => simp [ExpenseData.validate_amount, not_le.mpr (ha a hra)]
  constructor
  · intro hle
    rcases hrd : r.description with _ | d
    · refine ⟨{ amount := r.amount, currency := r.currency, description := none,
                category_name := r.category_name,
                payment_method := r.payment_method,
                expense_date := ExpenseData.validate_expense_date r.expense_date,
                notes := some s, user_name := r.user_name,
                confidence := r.confidence }, ?_, rfl⟩
      simp [validateExpenseData, hamt, hrd, hn, hle, checkMaxLength,
        ExpenseData.validate_description, Bind.bind, Except.bind]
    · have hlen := hd d hrd
      by_cases hds : pyStrip d = ""
      · refine ⟨{ amount := r.amount, currency := r.currency,
                  description := none, category_name := r.category_name,
                  payment_method := r.payment_method,
                  expense_date := ExpenseData.validate_expense_date r.expense_date,
                  notes := some s, user_name := r.user_name,
                  confidence := r.confidence }, ?_, rfl⟩
        simp [validateExpenseData, hamt, hrd, hn, hle, hlen, hds,
          checkMaxLength, ExpenseData.validate_description, Bind.bind,
          Except.bind]
      · refine ⟨{ amount := r.amount, currency := r.currency,
                  description := some (pyStrip d),
                  category_name := r.category_name,
                  payment_method := r.payment_method,
                  expense_date := ExpenseData.validate_expense_date r.expense_date,
                  notes := some s, user_name := r.user_name,
                  confidence := r.confidence }, ?_, rfl⟩
        simp [validateExpenseData, hamt, hrd, hn, hle, hlen, hds,
          checkMaxLength, ExpenseData.validate_description, Bind.bind,
          Except.bind]
  · intro hgt
    have hnle : ¬ s.length ≤ 1000 := by omega
    refine ⟨"String has too many characters", ?_⟩
    rcases hrd : r.description with _ | d
    · simp [validateExpenseData, hamt, hrd, hn, hnle, checkMaxLength,
        ExpenseData.validate_description, Bind.bind, Except.bind]
    · have hlen := hd d hrd
      by_cases hds : pyStrip d = "" <;>
        simp [validateExpenseData, hamt, hrd, hn, hnle, hlen, hds,
          checkMaxLength, ExpenseData.validate_description, Bind.bind,
          Except.bind]

/-- Witness for C4 (amended) at a concrete input: an all-whitespace notes
value survives construction verbatim. -/
theorem C4_witness :
    (({ notes := some "   " } : RawExpenseData).notes = some "   ")
    ∧ ("   ".length ≤ 1000)
    ∧ ∃ e, validateExpenseData { notes := some "   " } = .ok e
        ∧ e.notes = some "   " :=
  ⟨rfl, by decide,
    (C4_notes_validation { notes := some "   " } "   " rfl
      (fun a h => by simp at h) (fun d h => by simp at h)).1 (by decide)⟩

/-! Claim C8. -/

/-- C8: with well-formed alternatives, `ClassificationResult` construction
succeeds exactly when the confidence score lies in the inclusive range
`[0, 1]`. -/
theorem C8_confidence_score_range (r : RawClassificationResult)
    (halts : ∀ alt ∈ r.alternative_categories, checkAltEntry alt = .ok ()) :
    (∃ c, validateClassificationResult r = .ok c)
      ↔ (0 ≤ r.confidence_score ∧ r.confidence_score ≤ 1) := by
  constructor
  · rintro ⟨c, hc⟩
    by_contra hrange
    simp [validateClassificationResult, hrange] at hc
  · intro hrange
    have hfl := forLoopCheck_ok checkAltEntry r.alternative_categories halts
    refine ⟨{ category_name := r.category_name, category_id := r.category_id,
              confidence := r.confidence,
              confidence_score := r.confidence_score,
              reasoning := r.reasoning,
              alternative_categories := r.alternative_categories }, ?_⟩
    simp [validateClassificationResult, hrange,
      ClassificationResult.validate_alternatives, hfl, Bind.bind, Except.bind]

/-- Concrete raw input for C8 with the low boundary score. -/
def rawC8lo : RawClassificationResult :=
  { confidence := .high, confidence_score := 0 }

/-- Concrete raw input for C8 with the high boundary score. -/
def rawC8hi : RawClassificationResult :=
  { confidence := .low, confidence_score := 1 }

/-- Witness for C8 at concrete inputs: both boundary scores 0.0 and 1.0 are
accepted. -/
theorem C8_witness :
    (∀ alt ∈ rawC8lo.alternative_categories, checkAltEntry alt = .ok ())
    ∧ (∃ c, validateClassificationResult rawC8lo = .ok c)
    ∧ (∃ c, validateClassificationResult rawC8hi = .ok c) :=
  ⟨fun alt h => by simp [rawC8lo] at h,
    (C8_confidence_score_range rawC8lo
      (fun alt h => by simp [rawC8lo] at h)).mpr
      ⟨by norm_num [rawC8lo], by norm_num [rawC8lo]⟩,
    (C8_confidence_score_range rawC8hi
      (fun alt h => by simp [rawC8hi] at h)).mpr
      ⟨by norm_num [rawC8hi], by norm_num [rawC8hi]⟩⟩

/-! Claim C9. -/

/-- The ways a single alternative-category entry can be malformed, as the
claim enumerates them: not a mapping, missing the `"name"` key, missing the
`"score"` key, a non-numeric score, or a score outside `[0, 1]`. -/
def malformedAlt : AltEntry → Prop
  | .nonDict => True
  | .dict kvs =>
      kvs.lookup "name" = none
      ∨ kvs.lookup "score" = none
      ∨ (∀ q : ℚ, kvs.lookup "score" ≠ some (.num q))
      ∨ (∃ q : ℚ, kvs.lookup "score" = some (.num q) ∧ (q < 0 ∨ 1 < q))

theorem checkAltEntry_error_of_malformed (alt : AltEntry)
    (h : malformedAlt alt) : ∃ m, checkAltEntry alt = .error m := by
  cases alt with
  | nonDict => exact ⟨"Alternative categories must be dictionaries", rfl⟩
  | dict kvs =>
      simp only [malformedAlt] at h
      rcases h with h1 | h2 | h3 | ⟨q, hq, hout⟩
      · exact ⟨"Alternative categories must have name and score keys",
          by simp [checkAltEntry, h1]⟩
      · exact ⟨"Alternative categories must have name and score keys",
          by simp [checkAltEntry, h2]⟩
      · rcases hs : kvs.lookup "score" with _ | v
        · exact ⟨"Alternative categories must have name and score keys",
            by simp [checkAltEntry, hs]⟩
        · cases v with
          | str s =>
              by_cases hnm : kvs.lookup "name" = none
              · exact ⟨"Alternative categories must have name and score keys",
                  by simp [checkAltEntry, hnm]⟩
              · exact ⟨"Alternative category scores must be between 0 and 1",
                  by simp [checkAltEntry, hs, Option.isNone_iff_eq_none, hnm]⟩
          | num q' => exact absurd hs (h3 q')
      · have hno : ¬ (0 ≤ q ∧ q ≤ 1) := by
          rcases hout with hlt | hgt
          · exact fun hc => absurd hc.1 (not_le.mpr hlt)
          · exact fun hc => absurd hc.2 (not_le.mpr hgt)
        by_cases hnm : kvs.lookup "name" = none
        · exact ⟨"Alternative categories must have name and score keys",
            by simp [checkAltEntry, hnm]⟩
        · exact ⟨"Alternative category scores must be between 0 and 1",
            by simp [checkAltEntry, hq, hno, Option.isNone_iff_eq_none, hnm]⟩

/-- C9: a single malformed alternative-category entry (not a mapping,
missing `"name"`, missing `"score"`, non-numeric score, or score outside
`[0, 1]`) fails `ClassificationResult` construction outright, and any
successful construction stores the alternatives list unchanged — never a
partially filtered one. -/
theorem C9_alternatives_whole_list (r : RawClassificationResult) :
    ((∃ alt ∈ r.alternative_categories, malformedAlt alt) →
        ∃ msg, validateClassificationResult r = .error msg)
    ∧ (∀ c, validateClassificationResult r = .ok c →
        c.alternative_categories = r.alternative_categories) := by
  constructor
  · rintro ⟨alt, hmem, hmal⟩
    obtain ⟨m, hm⟩ := checkAltEntry_error_of_malformed alt hmal
    by_cases hrange : 0 ≤ r.confidence_score ∧ r.confidence_score ≤ 1
    · obtain ⟨msg, hmsg⟩ :=
        forLoopCheck_error checkAltEntry _ alt hmem m hm
      exact ⟨msg, by simp [validateClassificationResult, hrange,
        ClassificationResult.validate_alternatives, hmsg, Bind.bind,
        Except.bind]⟩
    · exact ⟨"Input should be in the range 0 to 1",
        by simp [validateClassificationResult, hrange]⟩
  · intro c hc
    by_cases hrange : 0 ≤ r.confidence_score ∧ r.confidence_score ≤ 1
    · rcases hfl : forLoopCheck checkAltEntry r.alternative_categories
        with m | u
      · simp [validateClassificationResult, hrange,
          ClassificationResult.validate_alternatives, hfl, Bind.bind,
          Except.bind] at hc
      · simp [validateClassificationResult, hrange,
          ClassificationResult.validate_alternatives, hfl, Bind.bind,
          Except.bind] at hc
        rw [← hc]
    · simp [validateClassificationResult, hrange] at hc

/-- Concrete raw input for C9: one alternative entry lacking the `"score"`
key. -/
def rawC9 : RawClassificationResult :=
  { confidence := .medium, confidence_score := 1/2,
    alternative_categories := [.dict [("name", .str "food")]] }

/-- Witness for C9 at a concrete input: an entry missing `"score"` fails the
whole construction. -/
theorem C9_witness :
    (∃ alt ∈ rawC9.alternative_categories, malformedAlt alt)
    ∧ ∃ msg, validateClassificationResult rawC9 = .error msg :=
  ⟨⟨.dict [("name", .str "food")], by simp [rawC9],
      Or.inr (Or.inl rfl)⟩,
    (C9_alternatives_whole_list rawC9).1
      ⟨.dict [("name", .str "food")], by simp [rawC9],
        Or.inr (Or.inl rfl)⟩⟩

/-! Claim C10. -/

/-- C10: an `ExpenseData` construction with a present amount `≤ 0` fails;
with the amount absent or positive, the amount validator accepts the value
unchanged (construction never fails on the amount field). -/
theorem C10_amount_validation (r : RawExpenseData) :
    (∀ a, r.amount = some a → a ≤ 0 →
        ∃ msg, validateExpenseData r = .error msg)
    ∧ ((r.amount = none ∨ ∃ a, r.amount = some a ∧ 0 < a) →
        ExpenseData.validate_amount r.amount = .ok r.amount) := by
  constructor
  · intro a hra hle
    exact ⟨"Amount must be greater than 0",
      by simp [validateExpenseData, ExpenseData.validate_amount, hra, hle,
        Bind.bind, Except.bind]⟩
  · rintro (hnone | ⟨a, hra, hpos⟩)
    · simp [hnone, ExpenseData.validate_amount]
    · simp [hra, ExpenseData.validate_amount, not_le.mpr hpos]

/-- Witness for C10 at concrete inputs: amount `-1` fails construction, and
amount `5` passes the amount validator. -/
theorem C10_witness :
    (({ amount := some (-1) } : RawExpenseData).amount = some (-1))
    ∧ (∃ msg, validateExpenseData { amount := some (-1) } = .error msg)
    ∧ ExpenseData.validate_amount
        ({ amount := some 5 } : RawExpenseData).amount
        = .ok ({ amount := some 5 } : RawExpenseData).amount :=
  ⟨rfl,
    (C10_amount_validation { amount := some (-1) }).1 (-1) rfl (by norm_num),
    (C10_amount_validation { amount := some 5 }).2
      (Or.inr ⟨5, rfl, by norm_num⟩)⟩

end ExpensesAgent
